import Mathlib

/-!
Verification of the text_data_repair engine (src/model.py, src/viewmodel.py).

Python strings are embedded as `List Char`; Python exceptions as `Except PyErr`;
byte strings as `List Nat`.  Each definition mirrors one function or code block
of the source, named after it where Lean allows.
-/

namespace TDR

/-- Python exception kinds that the modelled code can raise. -/
inductive PyErr where
  | indexError
  | valueError
  | attributeError
  | unicodeDecodeError
  | tooManyLoops
  | fuelExhausted
deriving DecidableEq, Repr

/-- Shorthand: the character list of a string literal. -/
def s2l (s : String) : List Char := s.data

/-- Python slice `l[a:b]` for nonnegative bounds (clamping, empty when a >= b). -/
def sub (l : List Char) (a b : Nat) : List Char := (l.take b).drop a

/-- Python `str.find(pat, s)`: index of the first occurrence of `pat` in `l`
at an index not below `s`, as an `Option`. -/
def strFind (l pat : List Char) (s : Nat) : Option Nat :=
  (List.range (l.length + 1)).find? fun i => decide (s ≤ i) && pat.isPrefixOf (l.drop i)

/-- Python `str.find` with its -1-on-absence convention. -/
def strFindI (l pat : List Char) (s : Nat) : Int :=
  match strFind l pat s with
  | none => -1
  | some i => i

/-- Python `str.rfind(pat)`: index of the last occurrence, as an `Option`. -/
def strRFind (l pat : List Char) : Option Nat :=
  (List.range (l.length + 1)).reverse.find? fun i => pat.isPrefixOf (l.drop i)

/-- Python `str.rfind` with its -1-on-absence convention. -/
def strRFindI (l pat : List Char) : Int :=
  match strRFind l pat with
  | none => -1
  | some i => i

/-- Python substring containment `pat in l` (for nonempty `pat`). -/
def hasSub (l pat : List Char) : Bool := (strFind l pat 0).isSome

/-- Python `str.count(pat)` for nonempty `pat`: non-overlapping occurrences,
scanning left to right.  The fuel argument is only a structural-recursion
bound: every step consumes at least one character, so `l.length` fuel always
suffices and the `0` case is never reached from `strCount`. -/
def strCountAux (pat : List Char) : Nat → List Char → Nat
  | _, [] => 0
  | 0, _ => 0
  | fuel + 1, c :: rest =>
    if pat ≠ [] ∧ pat.isPrefixOf (c :: rest) then
      1 + strCountAux pat fuel ((c :: rest).drop pat.length)
    else
      strCountAux pat fuel rest

/-- Python `str.count(pat)`. -/
def strCount (pat l : List Char) : Nat := strCountAux pat l.length l

/-- Python `str.replace(pat, rep)` for nonempty `pat` (for empty `pat` it
returns the input unchanged, which agrees with the source's only empty-pattern
use, `column.replace(qualifier, "")` with an empty qualifier).  Fuel as in
`strCountAux`. -/
def replaceListAux (pat rep : List Char) : Nat → List Char → List Char
  | _, [] => []
  | 0, l => l
  | fuel + 1, c :: rest =>
    if pat ≠ [] ∧ pat.isPrefixOf (c :: rest) then
      rep ++ replaceListAux pat rep fuel ((c :: rest).drop pat.length)
    else
      c :: replaceListAux pat rep fuel rest

/-- Python `str.replace(pat, rep)`. -/
def replaceList (pat rep l : List Char) : List Char := replaceListAux pat rep l.length l

/-- Python `str.split(sep)` for nonempty `sep`, accumulating the current
piece in reverse.  Fuel as in `strCountAux`. -/
def splitOnSepAux (sep : List Char) : Nat → List Char → List Char → List (List Char)
  | _, cur, [] => [cur.reverse]
  | 0, cur, l => [cur.reverse ++ l]
  | fuel + 1, cur, c :: rest =>
    if sep ≠ [] ∧ sep.isPrefixOf (c :: rest) then
      cur.reverse :: splitOnSepAux sep fuel [] ((c :: rest).drop sep.length)
    else
      splitOnSepAux sep fuel (c :: cur) rest

/-- Python `record.split(sep)`. -/
def pySplit (sep l : List Char) : List (List Char) := splitOnSepAux sep l.length [] l

/-- Python `line.rstrip("\r\n")`. -/
def rstripCRLF (l : List Char) : List Char :=
  (l.reverse.dropWhile fun c => c == '\r' || c == '\n').reverse

/-- The classification chain at the end of `TextDataDoctor.analyze_file`
(src/model.py lines 341-389), as a function of the five booleans it reads:
bad escapes present, bad delimiters present, the `too_few_delimiters` flag,
a qualifier configured, overflow lines present. -/
def classify (be bd tf q ovf : Bool) : Int :=
  if be && bd then -1
  else if be then -2
  else if bd && !q && !tf then -3
  else if bd && tf then -4
  else if bd && q then -5
  else if !bd && !be then (if ovf && !q then -6 else 1)
  else -7

/-- The condition of one row of the section 4.6 decision table, read with the
priority the source chain gives the rows (each row includes the negation of the
rows above it, which makes the rows mutually exclusive). -/
def rowCond (code : Int) (be bd tf q ovf : Bool) : Bool :=
  if code = -1 then be && bd
  else if code = -2 then be && !bd
  else if code = -3 then !be && bd && !q && !tf
  else if code = -4 then !be && bd && tf
  else if code = -5 then !be && bd && q && !tf
  else if code = -6 then !be && !bd && ovf && !q
  else if code = 1 then !be && !bd && !(ovf && !q)
  else if code = -7 then
    !(be && bd) && !(be && !bd) && !(!be && bd && !q && !tf) && !(!be && bd && tf) &&
    !(!be && bd && q && !tf) && !(!be && !bd)
  else false

/-- The codes of the section 4.6 decision table. -/
def tableCodes : List Int := [1, -1, -2, -3, -4, -5, -6, -7]

/-- `TextDataDoctor.find_value_end` (src/model.py lines 189-196): resolve the
true end of a qualified value by skipping every later `end_pattern` that comes
before the next `start_pattern`.  The recursion always advances (`strFind_ge`
gives `next_end > end_position` and `strFind_le` bounds it by the record
length), so `record.length + 1` fuel always suffices and the `0` case is
never reached from `find_value_end`. -/
def findValueEndAux (record sp ep : List Char) : Nat → Nat → Nat
  | 0, end_position => end_position
  | fuel + 1, end_position =>
    let next_start := strFindI record sp (end_position + 1)
    match strFind record ep (end_position + 1) with
    | none => end_position
    | some next_end =>
      if (next_start ≠ -1 ∧ (next_end : Int) < next_start) ∨ next_start = -1 then
        findValueEndAux record sp ep fuel next_end
      else end_position

/-- `TextDataDoctor.find_value_end`. -/
def find_value_end (record sp ep : List Char) (end_position : Nat) : Nat :=
  findValueEndAux record sp ep (record.length + 1) end_position

/-- `TextDataDoctor.is_not_end_qualified_values` (src/model.py lines 184-187):
the while condition of the qualified-value scan. -/
def is_not_end_qualified_values (record sp ep : List Char) (start e : Nat) : Bool :=
  hasSub (sub record start e) sp && hasSub (sub record start e) ep && decide (start < e)

/-- The while loop of `TextDataDoctor.get_qualifier_values` (src/model.py lines
213-225), with an explicit fuel argument giving the loop a step-counting
semantics: `none` means the fuel ran out before the loop finished.  Each
iteration increments `counter`; once it passes 100 the source raises
`Exception("Too many while loops")`, modelled as `.error .tooManyLoops`.
Inside the loop, `record.index` raising (`ValueError`) propagates out of the
generator: the source's `except IndexError` clause never matches it. -/
def gqvLoopFuel (record sp ep : List Char) (e : Nat) :
    Nat → Nat → Nat → Option (Except PyErr (List (List Char)))
  | 0, _, _ => none
  | fuel + 1, start, counter =>
    if is_not_end_qualified_values record sp ep start e then
      match strFind record sp start with
      | none => some (.error .valueError)
      | some value_start =>
        match strFind record ep value_start with
        | none => some (.error .valueError)
        | some end_position =>
          let value_end := find_value_end record sp ep end_position
          let v := sub record (value_start + 2) value_end
          if counter + 1 > 100 then some (.error .tooManyLoops)
          else
            (gqvLoopFuel record sp ep e fuel (value_end + 1) (counter + 1)).map
              fun r => r.map fun vs => v :: vs
    else some (.ok [])

/-- `TextDataDoctor.get_qualifier_values` (src/model.py lines 198-225), with
the yielded values materialized as a list and raised exceptions as `.error`.
`record[1:].index(..)` and `record[:-1].rindex(..)` raise `ValueError` when
the pattern is absent from the sliced string even though the guard checked the
unsliced record. -/
def get_qualifier_values (record q d : List Char) : Except PyErr (List (List Char)) := do
  if q = [] then throw .attributeError
  if record = [] then throw .attributeError
  let sp := d ++ q
  let ep := q ++ d
  let mut start := 0
  let mut e := record.length
  let mut acc : List (List Char) := []
  if record.take 1 = q ∧ hasSub record ep then
    match strFind (record.drop 1) ep 0 with
    | none => throw .valueError
    | some temp_start =>
      acc := acc ++ [sub record 1 temp_start]
      start := temp_start
  if record.drop (record.length - 1) = q ∧ hasSub record sp then
    match strRFind (record.take (record.length - 1)) sp with
    | none => throw .valueError
    | some last_pattern =>
      acc := acc ++ [sub record (last_pattern + 1) (e - 1)]
      e := last_pattern + 1
  match gqvLoopFuel record sp ep e 102 start 0 with
  | none => throw .fuelExhausted
  | some (.error err) => throw err
  | some (.ok vs) => return acc ++ vs

/-- `TextDataDoctor.non_escaped_qualifiers` (src/model.py lines 227-236): true
when the value contains a maximal run of the qualifier character, bounded by a
non-qualifier character on both sides, whose length is odd.  The source builds
its regex from a one-character qualifier string; the analysis pass guards the
call so that only a nonempty (hence, by config validation, one-character)
qualifier reaches it. -/
def non_escaped_qualifiers (q : List Char) (v : List Char) : Bool :=
  match q with
  | [qc] =>
    (List.range v.length).any fun i =>
      (List.range v.length).any fun j =>
        decide (i + 2 ≤ j) &&
        (v.getD i qc != qc) && (v.getD j qc != qc) &&
        ((List.range v.length).all fun k =>
          !(decide (i < k) && decide (k < j)) || (v.getD k qc == qc)) &&
        decide ((j - i - 1) % 2 = 1)
  | _ => false

/-- The `BadEscape` dataclass (src/model.py lines 27-41). -/
structure BadEscape where
  qualifier : List Char
  record : List Char
  values : List (List Char)
deriving DecidableEq, Repr

/-- `BadEscape.escape_qualifiers` (src/model.py lines 33-37): replace each
occurrence of qualifier+value+qualifier by the form with every qualifier
inside the value doubled. -/
def BadEscape.escape_qualifiers (q : List Char) (accumulator value : List Char) :
    List Char :=
  replaceList (q ++ value ++ q) (q ++ replaceList q (q ++ q) value ++ q) accumulator

/-- `BadEscape.fix_record` (src/model.py lines 39-41): left fold of
`escape_qualifiers` over the offending values, starting from the record. -/
def BadEscape.fix_record (be : BadEscape) : List Char :=
  be.values.foldl (BadEscape.escape_qualifiers be.qualifier) be.record

/-- The configuration state built by `TextDataDoctor.__init__` (src/model.py
lines 76-96).  The compiled record-start regex is embedded as the predicate
`matches` (its `.match` method); path and encoding play no further role in the
record-processing logic and are omitted. -/
structure Doctor where
  re_match : List Char → Bool
  delimiter : List Char
  qualifier : List Char
  all_qualified : Bool
  header_line : List Char

/-- `TextDataDoctor.__init__`: line 88 hardcodes `self.all_qualified = True`
(next to a comment saying it should be False), and no other statement in the
repository assigns that attribute; the header line is read and stripped of
trailing newline characters. -/
def mkDoctor (re_match : List Char → Bool) (delimiter qualifier rawHeader : List Char) :
    Doctor :=
  { re_match := re_match, delimiter := delimiter, qualifier := qualifier,
    all_qualified := true, header_line := rstripCRLF rawHeader }

/-- `self.columns` from `__init__` (lines 92-95): header split by the
delimiter, qualifier characters removed from each name. -/
def Doctor.columns (doc : Doctor) : List (List Char) :=
  (pySplit doc.delimiter doc.header_line).map fun column =>
    replaceList doc.qualifier [] column

/-- `self.header_delimiter_count` from `__init__` (line 96). -/
def Doctor.header_delimiter_count (doc : Doctor) : Nat :=
  strCount doc.delimiter doc.header_line

/-- `TextDataDoctor.all_qualified_pattern` (lines 168-170). -/
def Doctor.all_qualified_pattern (doc : Doctor) : List Char :=
  doc.qualifier ++ doc.delimiter ++ doc.qualifier

/-- `TextDataDoctor.start_pattern` (lines 172-174). -/
def Doctor.start_pattern (doc : Doctor) : List Char :=
  doc.delimiter ++ doc.qualifier

/-- `TextDataDoctor.end_pattern` (lines 176-178). -/
def Doctor.end_pattern (doc : Doctor) : List Char :=
  doc.qualifier ++ doc.delimiter

/-- A word character in the sense of the source's regexes (`\w`, restricted to
the alphanumeric-or-underscore characters the modelled inputs use). -/
def isWordChar (c : Char) : Bool := c.isAlphanum || c == '_'

/-- The regex `^\w+[).] ` of src/model.py line 276 as a predicate: one or more
word characters, a `)` or `.`, then a space.  No backtracking is needed since
`)` and `.` are not word characters. -/
def matchesListMarker (line : List Char) : Bool :=
  let w := line.takeWhile isWordChar
  !w.isEmpty &&
    (match line.drop w.length with
     | c1 :: c2 :: _ => (c1 == ')' || c1 == '.') && c2 == ' '
     | _ => false)

/-- The decision `get_records` takes for one physical line (src/model.py lines
250-286): start a new record (flushing a non-empty buffer), append the line to
the buffer as an overflow continuation, flush the buffer unconditionally and
start a new one, or raise. -/
inductive LineAction where
  | startNew
  | appendOv
  | yieldStart
  | err : PyErr → LineAction
deriving DecidableEq, Repr

/-- The fall-through tail of the per-line decision (lines 274-286): list-item
shape or a delimiter-count mismatch appends to the buffer, otherwise the
buffer is flushed and a new one starts. -/
def lineActionTail (doc : Doctor) (line : List Char) : LineAction :=
  if matchesListMarker line then .appendOv
  else if strCount doc.delimiter line ≠ doc.header_delimiter_count then .appendOv
  else .yieldStart

/-- The full per-line decision of `get_records` (lines 250-286).  With a
qualifier configured, `record[-1]` is evaluated before the rest of
`check_exp`; on an empty buffer that raises `IndexError`. -/
def lineAction (doc : Doctor) (record line : List Char) : LineAction :=
  if doc.re_match line then .startNew
  else if line = [] then .appendOv
  else if doc.qualifier ≠ [] then
    match record.getLast? with
    | none => .err .indexError
    | some c =>
      if [c] ≠ doc.qualifier ∧ strRFindI record doc.start_pattern ≠ -1 ∧
          strRFindI record doc.end_pattern < strRFindI record doc.start_pattern then
        .appendOv
      else lineActionTail doc line
  else lineActionTail doc line

/-- The record-reassembly loop of `TextDataDoctor.get_records` (src/model.py
lines 238-287) over the data lines, carrying the record buffer and the
enumeration index; returns the yielded records and the overflow line numbers
(`i + 2`, counting the header line and 1-based numbering). -/
def grLoop (doc : Doctor) : List (List Char) → List Char → Nat →
    Except PyErr (List (List Char) × List Nat)
  | [], record, _ => .ok ([record], [])
  | line0 :: rest, record, i =>
    let line := rstripCRLF line0
    match lineAction doc record line with
    | .err er => .error er
    | .startNew =>
      (grLoop doc rest line (i + 1)).map fun p =>
        (if record ≠ [] then record :: p.1 else p.1, p.2)
    | .appendOv =>
      (grLoop doc rest (record ++ '\r' :: line) (i + 1)).map fun p =>
        (p.1, (i + 2) :: p.2)
    | .yieldStart =>
      (grLoop doc rest line (i + 1)).map fun p => (record :: p.1, p.2)

/-- `TextDataDoctor.get_records`: the header line is consumed first, then the
loop runs with an empty buffer; the final buffer is always yielded. -/
def Doctor.get_records (doc : Doctor) (fileLines : List (List Char)) :
    Except PyErr (List (List Char) × List Nat) :=
  grLoop doc (fileLines.drop 1) [] 0

/-- `re.sub(f"{delimiter}$", "", record)` (src/model.py line 307) for a
delimiter without regex metacharacters: drop one trailing occurrence. -/
def stripTrailingDelim (d record : List Char) : List Char :=
  if d ≠ [] ∧ d.isSuffixOf record then record.take (record.length - d.length)
  else record

/-- The per-pass accumulator of `analyze_file`: the collected findings, the
running `too_few_delimiters` flag, and the text written to the output so
far. -/
structure AnalyzeState where
  bad_escapes : List BadEscape
  bad_delimiters : List (List Char)
  too_few_delimiters : Bool
  written : List Char
deriving DecidableEq, Repr

/-- The body of `analyze_file`'s per-record loop (src/model.py lines 303-339):
escape check (via the all-qualified split or `get_qualifier_values` depending
on the flag), delimiter-count check with recomputation, and the verbatim write
of records that are not bad. -/
def Doctor.processRecord (doc : Doctor) (st0 : AnalyzeState) (record0 : List Char) :
    Except PyErr AnalyzeState := do
  let mut record := record0
  let mut is_bad_record := false
  let mut st := st0
  if hasSub record doc.qualifier ∧ doc.qualifier ≠ [] then
    if doc.all_qualified then
      record := stripTrailingDelim doc.delimiter record
    let checks ←
      if doc.all_qualified then
        pure (pySplit doc.all_qualified_pattern (sub record 1 (record.length - 1)))
      else
        get_qualifier_values record doc.qualifier doc.delimiter
    let result := checks.filter (non_escaped_qualifiers doc.qualifier)
    if result ≠ [] then
      st := { st with bad_escapes := st.bad_escapes ++ [⟨doc.qualifier, record, result⟩] }
      is_bad_record := true
  let mut delimiter_count : Int := (strCount doc.delimiter record : Int)
  if delimiter_count ≠ (doc.header_delimiter_count : Int) then
    if hasSub record doc.qualifier ∧ doc.qualifier ≠ [] then
      if doc.all_qualified then
        delimiter_count := ((pySplit doc.all_qualified_pattern record).length : Int) - 1
      else
        let vs ← get_qualifier_values record doc.qualifier doc.delimiter
        delimiter_count :=
          delimiter_count - (vs.map fun v => (strCount doc.delimiter v : Int)).foldl (· + ·) 0
      if delimiter_count ≠ (doc.header_delimiter_count : Int) then
        st := { st with bad_delimiters := st.bad_delimiters ++ [record],
                        too_few_delimiters :=
                          delimiter_count < (doc.header_delimiter_count : Int) }
        is_bad_record := true
    else
      st := { st with bad_delimiters := st.bad_delimiters ++ [record],
                      too_few_delimiters :=
                        delimiter_count < (doc.header_delimiter_count : Int) }
      is_bad_record := true
  if ¬ is_bad_record then
    st := { st with written := st.written ++ record ++ ['\n'] }
  return st

/-- The result record of `analyze_file`, with `content` the byte-for-byte text
written to the temporary output file.  The guidance-message texts are not
modelled; `columns` and `delimiter` are carried by `Doctor`. -/
structure AnalyzeOut where
  code : Int
  content : List Char
  overflow_lines : List Nat
  bad_delimiters : List (List Char)
  bad_escapes : List BadEscape
deriving DecidableEq, Repr

/-- `TextDataDoctor.analyze_file` (src/model.py lines 289-401): header plus
newline, then each good record plus newline, and finally
`temp_file.writelines` of the repaired escape records — `writelines` appends
the list elements with no separator — followed by the classification chain. -/
def Doctor.analyze_file (doc : Doctor) (fileLines : List (List Char)) :
    Except PyErr AnalyzeOut := do
  let (records, overflow_lines) ← doc.get_records fileLines
  let init : AnalyzeState := ⟨[], [], false, doc.header_line ++ ['\n']⟩
  let st ← records.foldlM doc.processRecord init
  let content := st.written ++ (st.bad_escapes.map BadEscape.fix_record).flatten
  let code := classify (!st.bad_escapes.isEmpty) (!st.bad_delimiters.isEmpty)
    st.too_few_delimiters (!doc.qualifier.isEmpty) (!overflow_lines.isEmpty)
  return ⟨code, content, overflow_lines, st.bad_delimiters, st.bad_escapes⟩

/-- Instrumentation of `analyze_file`'s per-record branching (lines 305-329):
true when either the escape-check extraction or the delimiter recount would
take the `get_qualifier_values` branch instead of the all-qualified split. -/
def Doctor.recordUsesAltBranch (doc : Doctor) (record0 : List Char) : Bool :=
  let qInRec := hasSub record0 doc.qualifier && !doc.qualifier.isEmpty
  let record :=
    if qInRec && doc.all_qualified then stripTrailingDelim doc.delimiter record0
    else record0
  let firstAlt := qInRec && !doc.all_qualified
  let qInRec2 := hasSub record doc.qualifier && !doc.qualifier.isEmpty
  let secondAlt :=
    (strCount doc.delimiter record != doc.header_delimiter_count) && qInRec2 &&
      !doc.all_qualified
  firstAlt || secondAlt

/-- A UTF-8 continuation byte. -/
def isContByte (b : Nat) : Bool := decide (0x80 ≤ b) && decide (b < 0xC0)

/-- UTF-8 decoding of a byte sequence (the behaviour of Python
`bytes.decode("utf8")` as used by `peek_file`): `none` whenever Python raises
`UnicodeDecodeError` — bad leading bytes, missing or malformed continuation
bytes, overlong encodings, surrogates, and out-of-range sequences. -/
def utf8Decode : List Nat → Option (List Char)
  | [] => some []
  | b :: rest =>
    if b < 0x80 then (utf8Decode rest).map (Char.ofNat b :: ·)
    else if 0xC2 ≤ b ∧ b ≤ 0xDF then
      match rest with
      | b2 :: rest2 =>
        if isContByte b2 then
          (utf8Decode rest2).map (Char.ofNat ((b - 0xC0) * 0x40 + (b2 - 0x80)) :: ·)
        else none
      | [] => none
    else if 0xE0 ≤ b ∧ b ≤ 0xEF then
      match rest with
      | b2 :: b3 :: rest2 =>
        if isContByte b2 ∧ isContByte b3 ∧ (b ≠ 0xE0 ∨ 0xA0 ≤ b2) ∧
            (b ≠ 0xED ∨ b2 < 0xA0) then
          (utf8Decode rest2).map
            (Char.ofNat ((b - 0xE0) * 0x1000 + (b2 - 0x80) * 0x40 + (b3 - 0x80)) :: ·)
        else none
      | _ => none
    else if 0xF0 ≤ b ∧ b ≤ 0xF4 then
      match rest with
      | b2 :: b3 :: b4 :: rest2 =>
        if isContByte b2 ∧ isContByte b3 ∧ isContByte b4 ∧
            (b ≠ 0xF0 ∨ 0x90 ≤ b2) ∧ (b ≠ 0xF4 ∨ b2 < 0x90) then
          (utf8Decode rest2).map
            (Char.ofNat ((b - 0xF0) * 0x40000 + (b2 - 0x80) * 0x1000 +
              (b3 - 0x80) * 0x40 + (b4 - 0x80)) :: ·)
        else none
      | _ => none
    else none

/-- The Windows-1252 mapping for bytes 0x80-0x9F; the five gaps are the bytes
on which Python `bytes.decode("cp1252")` raises. -/
def cp1252High (b : Nat) : Option Nat :=
  if b = 0x80 then some 0x20AC
  else if b = 0x82 then some 0x201A
  else if b = 0x83 then some 0x0192
  else if b = 0x84 then some 0x201E
  else if b = 0x85 then some 0x2026
  else if b = 0x86 then some 0x2020
  else if b = 0x87 then some 0x2021
  else if b = 0x88 then some 0x02C6
  else if b = 0x89 then some 0x2030
  else if b = 0x8A then some 0x0160
  else if b = 0x8B then some 0x2039
  else if b = 0x8C then some 0x0152
  else if b = 0x8E then some 0x017D
  else if b = 0x91 then some 0x2018
  else if b = 0x92 then some 0x2019
  else if b = 0x93 then some 0x201C
  else if b = 0x94 then some 0x201D
  else if b = 0x95 then some 0x2022
  else if b = 0x96 then some 0x2013
  else if b = 0x97 then some 0x2014
  else if b = 0x98 then some 0x02DC
  else if b = 0x99 then some 0x2122
  else if b = 0x9A then some 0x0161
  else if b = 0x9B then some 0x203A
  else if b = 0x9C then some 0x0153
  else if b = 0x9E then some 0x017E
  else if b = 0x9F then some 0x0178
  else none

/-- One byte of Python `bytes.decode("cp1252")`: ASCII below 0x80, the table
above, and the Latin-1-coinciding range 0xA0-0xFF. -/
def cp1252Byte (b : Nat) : Option Char :=
  if b < 0x80 then some (Char.ofNat b)
  else if b ≤ 0x9F then (cp1252High b).map Char.ofNat
  else if b ≤ 0xFF then some (Char.ofNat b)
  else none

/-- Python `bytes.decode("cp1252")` of a whole byte line. -/
def cp1252Decode (bs : List Nat) : Option (List Char) := bs.mapM cp1252Byte

/-- `re.split(r"\w+", header)` (src/model.py line 150): the pieces of the
header between maximal runs of word characters, leading and trailing empty
pieces included, as a left-to-right scan (`inWord` is true while a word run
is being skipped). -/
def splitWordRunsAux : Bool → List Char → List Char → List (List Char)
  | _, cur, [] => [cur.reverse]
  | inWord, cur, c :: rest =>
    if isWordChar c then
      if inWord then splitWordRunsAux true cur rest
      else cur.reverse :: splitWordRunsAux true [] rest
    else
      if inWord then splitWordRunsAux false [c] rest
      else splitWordRunsAux false (c :: cur) rest

/-- `re.split(r"\w+", header)`. -/
def splitWordRuns (l : List Char) : List (List Char) := splitWordRunsAux false [] l

/-- `spacer.replace(" ", "")` (src/model.py lines 149, 151, 156). -/
def removeSpaces (l : List Char) : List Char := l.filter (fun c => c != ' ')

/-- `set(...)` as used on line 163: distinct characters.  Only the size of the
set and, when the size is one, its sole element are consumed, so the order in
which this keeps duplicates is immaterial. -/
def dedupChars : List Char → List Char
  | [] => []
  | c :: rest => if c ∈ rest then dedupChars rest else c :: dedupChars rest

/-- The `PeekResult` dataclass (src/model.py lines 44-51); the path and the
guidance-message text are not modelled. -/
structure PeekResult where
  code : Int
  delimiter : List Char
  qualifier : List Char
  encoding : String
deriving DecidableEq, Repr

/-- The delimiter-and-qualifier discovery section of `peek_file` (src/model.py
lines 147-166), applied to the decoded, newline-stripped header line:
spacer candidates, the `spacers[1] if len(spacers) > 1 else spacers[0]`
selection (an uncaught `IndexError` when no spacer survives the filter), the
unique-character delimiter guess, and the single-leftover-character qualifier
guess. -/
def findDelimiterQualifier (header : List Char) (encoding : String) :
    Except PyErr PeekResult :=
  let spacers := ((splitWordRuns header).map removeSpaces).filter (fun s => !s.isEmpty)
  match (if spacers.length > 1 then spacers.get? 1 else spacers.get? 0) with
  | none => .error .indexError
  | some check_space0 =>
    if check_space0.all (fun c => c == ' ') then .ok ⟨-3, [], [], encoding⟩
    else
      let check_space := removeSpaces check_space0
      match check_space.find?
          (fun c => strFindI check_space [c] 0 == strRFindI check_space [c]) with
      | none => .ok ⟨-4, [], [], encoding⟩
      | some delimiter =>
        let remaining := dedupChars (check_space.filter (fun c => c != delimiter))
        let qualifier := if remaining.length = 1 then remaining else []
        .ok ⟨1, [delimiter], qualifier, encoding⟩

/-- `TextDataDoctor.peek_file` (src/model.py lines 98-166) over the raw byte
lines of a file (first line the header), progress signalling and the
file-not-found case omitted.  On a UTF-8 decode failure of the header or any
body line, the whole file is re-read under cp1252; a header that fails the
fallback decode propagates `UnicodeDecodeError` uncaught.  When body lines
fail the fallback decode, the source constructs `PeekResult(-2, ...)` at line
139 but does not return it, so the scan falls through to delimiter discovery;
the model mirrors the fall-through. -/
def peek_file (fileLines : List (List Nat)) : Except PyErr PeekResult :=
  let byte_header := fileLines.headD []
  if byte_header.contains 0 then .ok ⟨-6, [], [], ""⟩
  else
    match utf8Decode byte_header, (fileLines.drop 1).mapM utf8Decode with
    | some header, some _ => findDelimiterQualifier (rstripCRLF header) "utf8"
    | _, _ =>
      match cp1252Decode byte_header with
      | none => .error .unicodeDecodeError
      | some header => findDelimiterQualifier (rstripCRLF header) "cp1252"

/-- The `bad_lines` list collected in `peek_file`'s cp1252 fallback branch
(src/model.py lines 125-136): the raw body lines that fail the fallback
decode. -/
def peek_bad_lines (fileLines : List (List Nat)) : List (List Nat) :=
  (fileLines.drop 1).filter (fun bl => (cp1252Decode bl).isNone)

/-- Python list indexing: a negative index counts from the end; out of range
raises `IndexError` (`none`). -/
def pyIdx (len : Nat) (i : Int) : Option Nat :=
  let j := if i < 0 then i + len else i
  if 0 ≤ j ∧ j < len then some j.toNat else none

/-- Python `l[i]` with Python index semantics. -/
def pyGet {α : Type} (l : List α) (i : Int) : Option α :=
  (pyIdx l.length i).bind fun j => l.get? j

/-- Python `l[i] = x` with Python index semantics. -/
def pySet {α : Type} (l : List α) (i : Int) (x : α) : Option (List α) :=
  (pyIdx l.length i).map fun j => l.set j x

/-- The `BadDelimiterChange` dataclass (src/model.py lines 66-72); the
`start`/`end` fields are named `cstart`/`cend` because `end` is reserved. -/
structure BadDelimiterChange where
  row : Int
  cstart : Nat
  cend : Nat
  old_row : List (List Char)
deriving DecidableEq, Repr

/-- The editing state of `BadDelimitersTableModel` (src/viewmodel.py lines
243-259): the display-only pieces (good records, table headers, Qt roles) are
not touched by the edit operations and are omitted. -/
structure TableModel where
  delimiter : List Char
  current_change : Int
  table_changes : List BadDelimiterChange
  bad_delimiters : List (List (List Char))
deriving DecidableEq, Repr

/-- `BadDelimitersTableModel.get_row` (src/viewmodel.py lines 284-289). -/
def TableModel.get_row (m : TableModel) (row : Int) :
    Except PyErr (List (List Char)) :=
  if row = -1 then .error .indexError
  else if (m.bad_delimiters.length : Int) - 1 < row - 10 then .error .indexError
  else
    match pyGet m.bad_delimiters (row - 10) with
    | none => .error .indexError
    | some r => .ok r

/-- Python `sep.join(parts)`. -/
def strJoin (sep : List Char) : List (List Char) → List Char
  | [] => []
  | [x] => x
  | x :: y :: rest => x ++ sep ++ strJoin sep (y :: rest)

/-- `BadDelimitersTableModel.get_new_row` (src/viewmodel.py lines 291-294):
join the cells in `old_row[start : end + 1]` with the delimiter. -/
def TableModel.get_new_row (m : TableModel) (row : Int) (start e : Nat) :
    Except PyErr (List (List Char)) := do
  let old_row ← m.get_row row
  let new_value := strJoin m.delimiter ((old_row.take (e + 1)).drop start)
  return old_row.take start ++ [new_value] ++ old_row.drop (e + 1)

/-- `BadDelimitersTableModel.merge_cells` (src/viewmodel.py lines 296-314):
apply the merge to `bad_delimiters[row - 10]`, record the change (with the
pre-merge row snapshot), truncate any undone future edits, and advance the
cursor; nothing happens when the guard `len(...) > end` fails. -/
def TableModel.merge_cells (m : TableModel) (row : Int) (start e : Nat) :
    Except PyErr TableModel := do
  let r0 ← match pyGet m.bad_delimiters (row - 10) with
    | none => throw .indexError
    | some r => pure r
  if r0.length > e then
    let new_row ← m.get_new_row row start e
    let old ← m.get_row row
    let change : BadDelimiterChange := ⟨row, start, e, old⟩
    let bd ← match pySet m.bad_delimiters (row - 10) new_row with
      | none => throw .indexError
      | some l => pure l
    let kept := m.table_changes.take (m.current_change + 1).toNat
    return { m with bad_delimiters := bd,
                    table_changes := kept ++ [change],
                    current_change := m.current_change + 1 }
  else
    return m

/-- `BadDelimitersTableModel.undo_change` (src/viewmodel.py lines 316-326):
reapply the recorded snapshot at `change.row - 10` and move the cursor
back. -/
def TableModel.undo_change (m : TableModel) : Except PyErr TableModel :=
  if m.table_changes = [] ∨ m.current_change = -1 then .ok m
  else
    match pyGet m.table_changes m.current_change with
    | none => .error .indexError
    | some change =>
      match pySet m.bad_delimiters (change.row - 10) change.old_row with
      | none => .error .indexError
      | some bd =>
        .ok { m with bad_delimiters := bd, current_change := m.current_change - 1 }

/-- `BadDelimitersTableModel.redo_change` (src/viewmodel.py lines 328-338).
Line 334 assigns `self.bad_delimiters[change.row]`, using the table row index,
where every other access in the class uses `row - 10`. -/
def TableModel.redo_change (m : TableModel) : Except PyErr TableModel := do
  if m.current_change + 1 = (m.table_changes.length : Int) then
    return m
  let cc := m.current_change + 1
  let change ← match pyGet m.table_changes cc with
    | none => throw .indexError
    | some c => pure c
  let m1 : TableModel := { m with current_change := cc }
  let nr ← m1.get_new_row change.row change.cstart change.cend
  let bd ← match pySet m1.bad_delimiters change.row nr with
    | none => throw .indexError
    | some l => pure l
  return { m1 with bad_delimiters := bd }

/-- A concrete table state: eleven bad-delimiter rows shown below ten good
rows, so the first bad row sits at table row 10. -/
def demoRows : List (List (List Char)) :=
  [[s2l "a", s2l "b", s2l "c"],
   [s2l "r"], [s2l "r"], [s2l "r"], [s2l "r"], [s2l "r"],
   [s2l "r"], [s2l "r"], [s2l "r"], [s2l "r"],
   [s2l "k0", s2l "k1"]]

/-- The concrete table model built over `demoRows` with an empty history. -/
def demoTable : TableModel := ⟨s2l ",", -1, [], demoRows⟩

/-- A found index is at or after the requested start. -/
theorem strFind_ge {l pat : List Char} {s i : Nat} (h : strFind l pat s = some i) : s ≤ i := by
  have hp := List.find?_some h
  simp only [Bool.and_eq_true, decide_eq_true_eq] at hp
  exact hp.1

/-- A found index is at most the length of the searched list. -/
theorem strFind_le {l pat : List Char} {s i : Nat} (h : strFind l pat s = some i) :
    i ≤ l.length := by
  have hm := List.mem_of_find?_eq_some h
  have := List.mem_range.mp hm
  omega

/-- Mapping a function over an option does not change whether it is `some`. -/
theorem isSome_map {α β : Type} (f : α → β) (o : Option α) :
    (o.map f).isSome = o.isSome := by
  cases o <;> rfl

/-- Fuel `102` always suffices for the scan loop: the counter rises by one per
iteration and the source stops (with an error) once it passes 100. -/
theorem gqvLoopFuel_isSome (record sp ep : List Char) (e : Nat) :
    ∀ fuel start counter, 101 - counter < fuel →
    (gqvLoopFuel record sp ep e fuel start counter).isSome = true := by
  intro fuel
  induction fuel with
  | zero => intro s c h; omega
  | succ n ih =>
    intro s c h
    unfold gqvLoopFuel
    split
    · split
      · simp
      · split
        · simp
        · split
          · simp
          · rename_i hcnt
            rw [isSome_map]
            exact ih _ _ (by omega)
    · simp

/-- Claim C6: for every record, qualifier and delimiter the qualified-value
scan loop never runs forever: 102 steps always reach a result, and an
iteration that would push the counter past the fixed ceiling of 100 surfaces
as a raised failure (`tooManyLoops`, or the propagated `ValueError` from
`record.index`), never as an infinite loop or a swallowed condition. -/
theorem gqv_loop_bounded :
    ∀ (record sp ep : List Char) (e start counter : Nat),
    (gqvLoopFuel record sp ep e 102 start counter).isSome = true ∧
    (100 ≤ counter → is_not_end_qualified_values record sp ep start e = true →
      gqvLoopFuel record sp ep e 102 start counter = some (.error .tooManyLoops) ∨
      gqvLoopFuel record sp ep e 102 start counter = some (.error .valueError)) := by
  intro record sp ep e start counter
  refine ⟨gqvLoopFuel_isSome record sp ep e 102 start counter (by omega), ?_⟩
  intro hc hcond
  have h100 : 100 < counter + 1 := by omega
  unfold gqvLoopFuel
  split
  · split
    · right; rfl
    · split
      · right; rfl
      · left; simp [h100]
  · simp_all

/-- Witness for C6 at a concrete state: scanning `,"a",x` with delimiter `,`
and qualifier `"` from a state whose counter already reached the ceiling. -/
theorem gqv_loop_bounded_witness :
    (gqvLoopFuel (s2l ",\"a\",x") (s2l ",\"") (s2l "\",") 6 102 0 100).isSome = true ∧
    (gqvLoopFuel (s2l ",\"a\",x") (s2l ",\"") (s2l "\",") 6 102 0 100 =
        some (.error .tooManyLoops) ∨
      gqvLoopFuel (s2l ",\"a\",x") (s2l ",\"") (s2l "\",") 6 102 0 100 =
        some (.error .valueError)) := by
  have h := gqv_loop_bounded (s2l ",\"a\",x") (s2l ",\"") (s2l "\",") 6 0 100
  exact ⟨h.1, h.2 (by omega) (by decide)⟩

/-- Claim C2 (failing evaluation): on the record `"a","b"` with qualifier `"`
and delimiter `,`, `get_qualifier_values` yields the empty string (leading
value cut one character short of the first end_pattern) and `"b` (trailing
value starting on the qualifier itself) instead of the two field values `a`
and `b`. -/
theorem gqv_two_field_record_eval :
    get_qualifier_values (s2l "\"a\",\"b\"") (s2l "\"") (s2l ",") =
      .ok [s2l "", s2l "\"b"] ∧
    [s2l "", s2l "\"b"] ≠ [s2l "a", s2l "b"] := by
  exact ⟨by rfl, by decide⟩

/-- Claim C1: the outcome classification at the end of `analyze_file` is total
and deterministic: for any combination of (has_bad_escapes, has_bad_delimiters,
too_few, has_qualifier, overflow) exactly one row of the decision table
applies, the classification lands on that row, and no combination produces
code -7. -/
theorem classify_total_never_minus_seven : ∀ be bd tf q ovf : Bool,
    (tableCodes.countP fun c => rowCond c be bd tf q ovf) = 1 ∧
    classify be bd tf q ovf ≠ -7 ∧
    rowCond (classify be bd tf q ovf) be bd tf q ovf = true := by
  decide

/-- Claim C8: a doctor built by `__init__` has `all_qualified = True`, so
every record's escape-check extraction and delimiter recount take the uniform
all-qualified split; the `get_qualifier_values` branch is never executed. -/
theorem alt_branch_never_executed :
    ∀ (m : List Char → Bool) (d q h record : List Char),
      (mkDoctor m d q h).all_qualified = true ∧
      (mkDoctor m d q h).recordUsesAltBranch record = false := by
  intro m d q h record
  refine ⟨rfl, ?_⟩
  simp [Doctor.recordUsesAltBranch, mkDoctor]

/-- Claim C9: with a qualifier configured, when the first data line is
non-blank after newline stripping and does not match the record-start
pattern, `get_records` raises `IndexError`: `check_exp` evaluates
`record[-1]` on the still-empty record buffer. -/
theorem get_records_first_line_index_error :
    ∀ (doc : Doctor) (headerLine l0 : List Char) (rest : List (List Char)),
      doc.qualifier ≠ [] →
      rstripCRLF l0 ≠ [] →
      doc.re_match (rstripCRLF l0) = false →
      doc.get_records (headerLine :: l0 :: rest) = .error .indexError := by
  intro doc hl l0 rest hq hne hnm
  unfold Doctor.get_records
  simp only [List.drop_succ_cons, List.drop_zero]
  unfold grLoop
  have hact : lineAction doc [] (rstripCRLF l0) = .err .indexError := by
    unfold lineAction
    simp [hnm, hne, hq]
  simp only [hact]

/-- Witness for C9: qualifier `"`, a record-start pattern matching nothing,
and a data line `x,y`. -/
theorem get_records_first_line_index_error_witness :
    (mkDoctor (fun _ => false) (s2l ",") (s2l "\"") (s2l "a,b")).get_records
        [s2l "a,b", s2l "x,y"] = .error .indexError := by
  exact get_records_first_line_index_error _ _ _ _ (by decide) (by decide) rfl

/-- Claim C3 (failing evaluation): on the record `1,"Alice, "Ann"  Smith"`
(the spec's own Scenario 2) the analysis pass flags the extracted value as
improperly escaped, but `fix_record` leaves the record unchanged — the replace
pattern qualifier+value+qualifier does not occur in the record — so
re-scanning the repaired record still reports a violation. -/
theorem fix_record_not_idempotent_eval :
    (mkDoctor (fun _ => true) (s2l ",") (s2l "\"") (s2l "ab")).processRecord
        ⟨[], [], false, []⟩ (s2l "1,\"Alice, \"Ann\"  Smith\"") =
      .ok ⟨[⟨s2l "\"", s2l "1,\"Alice, \"Ann\"  Smith\"",
              [s2l ",\"Alice, \"Ann\"  Smith"]⟩], [], false, []⟩ ∧
    BadEscape.fix_record
        ⟨s2l "\"", s2l "1,\"Alice, \"Ann\"  Smith\"", [s2l ",\"Alice, \"Ann\"  Smith"]⟩ =
      s2l "1,\"Alice, \"Ann\"  Smith\"" ∧
    ((mkDoctor (fun _ => true) (s2l ",") (s2l "\"") (s2l "ab")).processRecord
        ⟨[], [], false, []⟩
        (BadEscape.fix_record
          ⟨s2l "\"", s2l "1,\"Alice, \"Ann\"  Smith\"",
            [s2l ",\"Alice, \"Ann\"  Smith"]⟩)).map
        (fun s => !s.bad_escapes.isEmpty) = .ok true := by
  exact ⟨rfl, rfl, rfl⟩

/-- Claim C5 (failing evaluation): a pass whose only findings are two
escape-bad records writes the header with a newline but appends the two
repaired records via `writelines` with no line terminator at all: the output
contains a single newline for three written records, and the two repaired
records run together on one line. -/
theorem analyze_output_missing_terminators :
    (mkDoctor (fun _ => true) (s2l ",") (s2l "\"") (s2l "a,b")).analyze_file
        [s2l "a,b", s2l "\"x\"y\",\"z\"", s2l "\"p\"q\",\"r\""] =
      .ok ⟨-2, s2l "a,b\n\"x\"\"y\",\"z\"\"p\"\"q\",\"r\"", [], [],
            [⟨s2l "\"", s2l "\"x\"y\",\"z\"", [s2l "x\"y"]⟩,
             ⟨s2l "\"", s2l "\"p\"q\",\"r\"", [s2l "p\"q"]⟩]⟩ ∧
    strCount (s2l "\n") (s2l "a,b\n\"x\"\"y\",\"z\"\"p\"\"q\",\"r\"") = 1 := by
  exact ⟨rfl, rfl⟩

/-- When the remaining characters and the accumulated piece are all word
characters or spaces, every piece produced by the word-run splitter consists
of spaces only. -/
theorem splitWordRunsAux_spaces :
    ∀ (l : List Char) (inWord : Bool) (cur : List Char),
      (∀ c ∈ cur, c = ' ') → (∀ c ∈ l, isWordChar c = true ∨ c = ' ') →
      ∀ p ∈ splitWordRunsAux inWord cur l, ∀ c ∈ p, c = ' '
  | [], iw, cur => by
    intro hcur _ p hp c hc
    simp only [splitWordRunsAux, List.mem_singleton] at hp
    subst hp
    exact hcur c (List.mem_reverse.mp hc)
  | a :: rest, iw, cur => by
    intro hcur hl p hp c hc
    have hrest : ∀ x ∈ rest, isWordChar x = true ∨ x = ' ' :=
      fun x hx => hl x (List.mem_cons_of_mem _ hx)
    by_cases hw : isWordChar a = true
    · cases iw with
      | true =>
        simp only [splitWordRunsAux, hw, if_true] at hp
        exact splitWordRunsAux_spaces rest true cur hcur hrest p hp c hc
      | false =>
        simp only [splitWordRunsAux, hw, if_true] at hp
        rcases List.mem_cons.mp hp with h1 | h2
        · subst h1
          exact hcur c (List.mem_reverse.mp hc)
        · exact splitWordRunsAux_spaces rest true [] (by simp) hrest p h2 c hc
    · have ha : a = ' ' := by
        rcases hl a (List.mem_cons_self a rest) with h | h
        · exact absurd h hw
        · exact h
      cases iw with
      | true =>
        simp only [splitWordRunsAux, hw] at hp
        refine splitWordRunsAux_spaces rest false [a] ?_ hrest p hp c hc
        intro x hx
        simp only [List.mem_singleton] at hx
        exact hx ▸ ha
      | false =>
        simp only [splitWordRunsAux, hw] at hp
        refine splitWordRunsAux_spaces rest false (a :: cur) ?_ hrest p hp c hc
        intro x hx
        rcases List.mem_cons.mp hx with h1 | h1
        · exact h1 ▸ ha
        · exact hcur x h1

/-- A header of word characters and spaces yields no spacer candidates: every
piece is all spaces, so space-stripping empties it and the filter removes
it. -/
theorem spacers_empty_of_word_space (header : List Char)
    (h : ∀ c ∈ header, isWordChar c = true ∨ c = ' ') :
    ((splitWordRuns header).map removeSpaces).filter (fun s => !s.isEmpty) = [] := by
  rw [List.filter_eq_nil_iff]
  intro s hs
  rcases List.mem_map.mp hs with ⟨p, hp, rfl⟩
  have hall := splitWordRunsAux_spaces header false [] (by simp) h p hp
  have hrs : removeSpaces p = [] := by
    rw [removeSpaces, List.filter_eq_nil_iff]
    intro x hx
    have := hall x hx
    simp [this]
  simp [hrs]

/-- On a header with no spacer candidates, the delimiter-discovery section
evaluates `spacers[0]` on an empty list: an uncaught `IndexError`. -/
theorem findDelimiterQualifier_no_spacer (header : List Char) (enc : String)
    (h : ∀ c ∈ header, isWordChar c = true ∨ c = ' ') :
    findDelimiterQualifier header enc = .error .indexError := by
  simp only [findDelimiterQualifier]
  rw [spacers_empty_of_word_space header h]
  rfl

/-- Claim C10: for every file whose decoded header line contains only word
characters (letters, digits, underscore) and spaces, `peek_file` raises an
uncaught `IndexError` when selecting a spacer candidate — every spacer is
filtered out and `spacers[0]` is indexed on an empty list — instead of
returning a typed delimiter-not-found outcome. -/
theorem peek_word_space_header_index_error :
    ∀ (hb : List Nat) (body : List (List Nat)) (header : List Char),
      hb.contains 0 = false →
      utf8Decode hb = some header →
      (body.mapM utf8Decode).isSome = true →
      (∀ c ∈ rstripCRLF header, isWordChar c = true ∨ c = ' ') →
      peek_file (hb :: body) = .error .indexError := by
  intro hb body header h0 hdec hbody hws
  unfold peek_file
  simp only [List.headD_cons, List.drop_succ_cons, List.drop_zero, h0,
    Bool.false_eq_true, if_false]
  rw [hdec]
  obtain ⟨bd, hbd⟩ := Option.isSome_iff_exists.mp hbody
  rw [hbd]
  exact findDelimiterQualifier_no_spacer (rstripCRLF header) "utf8" hws

/-- Witness for C10: the header `ab cd` (word characters and a space only). -/
theorem peek_word_space_header_index_error_witness :
    peek_file [[0x61, 0x62, 0x20, 0x63, 0x64]] = .error .indexError := by
  exact peek_word_space_header_index_error [0x61, 0x62, 0x20, 0x63, 0x64] []
    (s2l "ab cd") (by decide) (by decide) rfl (by decide)

/-- Claim C4 (failing evaluation): a file whose body holds the byte 0x81 —
invalid in both UTF-8 and cp1252 — produces a nonempty undecodable-lines list
in the fallback branch, yet `peek_file` returns the successful
delimiter-discovery outcome (code 1, delimiter comma, encoding cp1252)
instead of the typed code -2 failure: src/model.py line 139 constructs that
`PeekResult` but never returns it. -/
theorem peek_file_discards_undecodable_failure :
    peek_bad_lines [[0x61, 0x2C, 0x62], [0x81]] = [[0x81]] ∧
    peek_file [[0x61, 0x2C, 0x62], [0x81]] = .ok ⟨1, [','], [], "cp1252"⟩ := by
  exact ⟨rfl, rfl⟩

/-- Claim C7 (failing evaluation): on a table with eleven bad-delimiter rows,
merging cells 0-1 of the first bad row (table row 10), undoing, then redoing
does not restore the post-merge state: `redo_change` writes the re-merged row
to `bad_delimiters[10]` (the raw table row index) instead of
`bad_delimiters[0]`, leaving the affected row at its pre-merge values and
clobbering an unrelated row. -/
theorem undo_redo_does_not_restore_merge :
    (demoTable.merge_cells 10 0 1 >>= TableModel.undo_change >>=
        TableModel.redo_change) =
      .ok ⟨s2l ",", 0, [⟨10, 0, 1, [s2l "a", s2l "b", s2l "c"]⟩],
        [[s2l "a", s2l "b", s2l "c"],
         [s2l "r"], [s2l "r"], [s2l "r"], [s2l "r"], [s2l "r"],
         [s2l "r"], [s2l "r"], [s2l "r"], [s2l "r"],
         [s2l "a,b", s2l "c"]]⟩ ∧
    demoTable.merge_cells 10 0 1 =
      .ok ⟨s2l ",", 0, [⟨10, 0, 1, [s2l "a", s2l "b", s2l "c"]⟩],
        [[s2l "a,b", s2l "c"],
         [s2l "r"], [s2l "r"], [s2l "r"], [s2l "r"], [s2l "r"],
         [s2l "r"], [s2l "r"], [s2l "r"], [s2l "r"],
         [s2l "k0", s2l "k1"]]⟩ ∧
    ([[s2l "a", s2l "b", s2l "c"],
      [s2l "r"], [s2l "r"], [s2l "r"], [s2l "r"], [s2l "r"],
      [s2l "r"], [s2l "r"], [s2l "r"], [s2l "r"],
      [s2l "a,b", s2l "c"]] : List (List (List Char))) ≠
      [[s2l "a,b", s2l "c"],
       [s2l "r"], [s2l "r"], [s2l "r"], [s2l "r"], [s2l "r"],
       [s2l "r"], [s2l "r"], [s2l "r"], [s2l "r"],
       [s2l "k0", s2l "k1"]] := by
  exact ⟨rfl, rfl, by decide⟩

end TDR
